import Mathlib

/-!
Verification of the Lottery state machine of the
hardhat-smartContract-lottery-fcc repository.

The repository ships only the orchestration glue (deployment script, unit
and staging test suites, network configuration); the Solidity contract
`Lottery.sol` that implements the business logic is not part of the
provided sources.  Following the specification, the lottery is therefore
embedded here as a single stateful service (`Lottery`) with the four
operations `enter`, `checkUpkeepNeeded`, `performUpkeep` and
`fulfillRandomness`, each translated from the specification's description
of the external state-machine contract.  Ledger time is passed to the
time-dependent operations as an explicit `now : Nat` argument, and the
oracle-issued request identifier is passed to `performUpkeep` explicitly,
mirroring the asynchronous two-phase randomness interaction.
-/

/-- Participant addresses, abstracted as natural numbers. -/
abbrev Address := Nat

/-- Modelled from the spec: the Solidity contract `Lottery.sol` is missing
from the sources.  Spec §3: "LotteryState: enumeration {Open, Calculating}". -/
inductive LotteryState where
  | Open : LotteryState
  | Calculating : LotteryState
  deriving DecidableEq, Repr

/-- Modelled from the spec: numeric encoding of `LotteryState` as observed by
the unit tests (`getLotteryState` compares against "0" and "1"). -/
def LotteryState.toCode : LotteryState → Nat
  | .Open => 0
  | .Calculating => 1

/-- Modelled from the spec: error kinds of §7, "InsufficientPayment, NotOpen,
UpkeepNotNeeded, UnknownRequestId". -/
inductive LError where
  | InsufficientPayment : LError
  | NotOpen : LError
  | UpkeepNotNeeded : LError
  | UnknownRequestId : LError
  deriving DecidableEq, Repr

/-- Modelled from the spec: events of §6, "EntryRecorded(player),
RequestedWinner(requestId), WinnerPicked(winner)". -/
inductive LEvent where
  | EntryRecorded : Address → LEvent
  | RequestedWinner : Nat → LEvent
  | WinnerPicked : Address → LEvent
  deriving DecidableEq, Repr

/-- Modelled from the spec: the observable state of the Lottery contract,
from the data model of §3 (entry list, LotteryState, EntranceFee, Interval,
LatestTimestamp, RecentWinner) together with the contract balance and the
outstanding randomness request identifier. -/
structure Lottery where
  entries : List Address
  state : LotteryState
  entranceFee : Nat
  interval : Nat
  latestTimestamp : Nat
  recentWinner : Option Address
  balance : Nat
  outstandingRequest : Option Nat
  deriving DecidableEq, Repr

/-- Modelled from the spec: the constructor.  The deployment script passes
`entranceFee` and `interval`; the entry list starts empty, the state starts
Open (the unit test asserts `getLotteryState` is "0" right after deployment),
and `LatestTimestamp` is "last time a winner was selected or the lottery was
initialized", so it starts at deployment time `now`. -/
def Lottery.init (entranceFee interval now : Nat) : Lottery :=
  { entries := []
    state := .Open
    entranceFee := entranceFee
    interval := interval
    latestTimestamp := now
    recentWinner := none
    balance := 0
    outstandingRequest := none }

/-- Modelled from the spec: `enter(payment)` of §4.1, "fails with
InsufficientPayment if payment < EntranceFee; fails with NotOpen if
state ≠ Open; otherwise appends caller to entry list and emits an
EntryRecorded event".  The accepted payment adds to the contract balance. -/
def Lottery.enter (s : Lottery) (caller : Address) (payment : Nat) :
    Except LError (Lottery × LEvent) :=
  if payment < s.entranceFee then
    .error .InsufficientPayment
  else if s.state ≠ .Open then
    .error .NotOpen
  else
    .ok ({ s with entries := s.entries ++ [caller], balance := s.balance + payment },
         .EntryRecorded caller)

/-- Modelled from the spec: `checkUpkeepNeeded()` of §4.1, "true iff
state = Open AND entry list non-empty AND elapsed time since LatestTimestamp
≥ Interval AND contract balance > 0".  Elapsed time is `now - LatestTimestamp`
in (truncated) natural subtraction. -/
def Lottery.checkUpkeepNeeded (s : Lottery) (now : Nat) : Bool :=
  decide (s.state = .Open) && !s.entries.isEmpty &&
    decide (s.interval ≤ now - s.latestTimestamp) && decide (0 < s.balance)

/-- Modelled from the spec: `performUpkeep()` of §4.1, "fails with
UpkeepNotNeeded unless checkUpkeepNeeded() is true; transitions state to
Calculating; submits a randomness request; emits RequestedWinner with a
request identifier".  The identifier `rid` is issued by the external oracle
coordinator and is recorded as the outstanding request. -/
def Lottery.performUpkeep (s : Lottery) (now rid : Nat) :
    Except LError (Lottery × LEvent) :=
  if s.checkUpkeepNeeded now then
    .ok ({ s with state := .Calculating, outstandingRequest := some rid },
         .RequestedWinner rid)
  else
    .error .UpkeepNotNeeded

/-- Result of a successful randomness fulfillment: the new contract state,
the emitted event, and the payout transfer (recipient and amount). -/
structure FulfillOut where
  st : Lottery
  ev : LEvent
  transferTo : Address
  transferAmount : Nat
  deriving DecidableEq, Repr

/-- Modelled from the spec: `fulfillRandomness(requestId, randomWords)` of
§4.1, "fails if requestId does not match the outstanding request; selects
winner = entries[randomWords[0] mod entries.length]; transfers full balance
to winner; resets entry list to empty; sets state to Open; updates
LatestTimestamp; emits WinnerPicked".  The call happens at ledger time `now`,
which becomes the new `LatestTimestamp`. -/
def Lottery.fulfillRandomness (s : Lottery) (now requestId : Nat)
    (randomWords : List Nat) : Except LError FulfillOut :=
  if s.outstandingRequest = some requestId then
    let winner := s.entries.getD (randomWords.headD 0 % s.entries.length) 0
    .ok { st := { s with
                    entries := []
                    state := .Open
                    latestTimestamp := now
                    recentWinner := some winner
                    balance := 0
                    outstandingRequest := none }
          ev := .WinnerPicked winner
          transferTo := winner
          transferAmount := s.balance }
  else
    .error .UnknownRequestId

/-- Modelled from the spec: the accessor `getPlayer(i)` used by the tests;
it reverts on an out-of-range index (the staging test expects
`getPlayer(0)` to revert once the entry list is reset), modelled as `none`. -/
def Lottery.getPlayer (s : Lottery) (i : Nat) : Option Address :=
  s.entries.get? i

/-- Modelled from the spec: accessor `getLotteryState` (numeric encoding). -/
def Lottery.getLotteryState (s : Lottery) : Nat :=
  s.state.toCode

/-- Modelled from the spec: accessor `getEntranceFee`. -/
def Lottery.getEntranceFee (s : Lottery) : Nat :=
  s.entranceFee

/-- Modelled from the spec: accessor `getInterval`. -/
def Lottery.getInterval (s : Lottery) : Nat :=
  s.interval

/-- Modelled from the spec: accessor `getNumberOfPlayers`. -/
def Lottery.getNumberOfPlayers (s : Lottery) : Nat :=
  s.entries.length

/-- Transactions submitted against the lottery: an entry attempt, an upkeep
attempt, or a randomness-fulfillment attempt. -/
inductive LAction where
  | enterA : Address → Nat → LAction
  | upkeepA : Nat → Nat → LAction
  | fulfillA : Nat → Nat → List Nat → LAction
  deriving DecidableEq, Repr

/-- Ledger-level semantics of one submitted transaction: a failing call is
rolled back atomically, leaving the state unchanged (spec §7, "all are
rejected synchronously with no partial state mutation"). -/
def Lottery.step (s : Lottery) : LAction → Lottery
  | .enterA c p =>
      match s.enter c p with
      | .ok (s1, _) => s1
      | .error _ => s
  | .upkeepA now rid =>
      match s.performUpkeep now rid with
      | .ok (s1, _) => s1
      | .error _ => s
  | .fulfillA now rid ws =>
      match s.fulfillRandomness now rid ws with
      | .ok out => out.st
      | .error _ => s

/-- A sample deployed state ready for upkeep: one entrant, positive balance,
interval elapsed at time 6. -/
def sampleOpen : Lottery :=
  { entries := [7]
    state := .Open
    entranceFee := 10
    interval := 5
    latestTimestamp := 0
    recentWinner := none
    balance := 10
    outstandingRequest := none }

/-- The state reached from `sampleOpen` by a successful `performUpkeep` with
request identifier 1. -/
def sampleUpkept : Lottery :=
  { sampleOpen with state := .Calculating, outstandingRequest := some 1 }

/-- Claim C10: immediately after construction with a given entranceFee and
interval, the observable state has LotteryState Open (encoded 0),
`getEntranceFee` equal to the configured entranceFee, and `getInterval`
equal to the configured interval. -/
theorem constructor_initializes_correctly (fee ivl t0 : Nat) :
    (Lottery.init fee ivl t0).getLotteryState = 0 ∧
    (Lottery.init fee ivl t0).getEntranceFee = fee ∧
    (Lottery.init fee ivl t0).getInterval = ivl := by
  refine ⟨rfl, rfl, rfl⟩

/-- Claim C8: immediately after construction the entry list is empty, so
`checkUpkeepNeeded` returns false at every ledger time `now`, no matter how
much time has elapsed. -/
theorem checkUpkeep_false_after_init (fee ivl t0 now : Nat) :
    (Lottery.init fee ivl t0).checkUpkeepNeeded now = false := by
  simp [Lottery.init, Lottery.checkUpkeepNeeded, List.isEmpty]

/-- Claim C2: for every state, `checkUpkeepNeeded` returns true if and only
if the state is Open, the entry list is non-empty, the elapsed time since
LatestTimestamp is at least Interval, and the contract balance is positive. -/
theorem checkUpkeep_iff (s : Lottery) (now : Nat) :
    s.checkUpkeepNeeded now = true ↔
      s.state = .Open ∧ s.entries ≠ [] ∧
        s.interval ≤ now - s.latestTimestamp ∧ 0 < s.balance := by
  simp [Lottery.checkUpkeepNeeded, List.isEmpty_iff, and_assoc]

/-- A successful `enter` is only possible in the Open state. -/
theorem enter_ok_state_open {s s2 : Lottery} {c p : Nat} {ev : LEvent}
    (h : s.enter c p = .ok (s2, ev)) : s.state = .Open := by
  by_cases h1 : p < s.entranceFee
  · simp [Lottery.enter, h1] at h
  · by_cases h2 : s.state = .Open
    · exact h2
    · simp [Lottery.enter, h1, h2] at h

/-- Characterization of a successful `performUpkeep`: the result state is
Calculating with the issued request outstanding, and the emitted event is
RequestedWinner. -/
theorem performUpkeep_ok_spec {s s2 : Lottery} {now rid : Nat} {ev : LEvent}
    (h : s.performUpkeep now rid = .ok (s2, ev)) :
    s2.state = .Calculating ∧ s2.outstandingRequest = some rid ∧
      ev = .RequestedWinner rid := by
  by_cases hc : s.checkUpkeepNeeded now
  · simp [Lottery.performUpkeep, hc] at h
    rcases h with ⟨rfl, rfl⟩
    exact ⟨rfl, rfl, rfl⟩
  · simp [Lottery.performUpkeep, hc] at h

/-- Claim C4: `enter` fails with InsufficientPayment whenever the payment is
below the entrance fee, and in the Open state an exact-fee payment is
accepted, appending the caller to the entry list (which grows by one) and
emitting an EntryRecorded event. -/
theorem enter_fee_gate (s : Lottery) (c : Address) (p : Nat) :
    (p < s.entranceFee → s.enter c p = .error .InsufficientPayment) ∧
    (s.state = .Open → p = s.entranceFee →
      ∃ s1, s.enter c p = .ok (s1, .EntryRecorded c) ∧
        s1.entries = s.entries ++ [c] ∧
        s1.entries.length = s.entries.length + 1) := by
  constructor
  · intro h
    simp [Lottery.enter, h]
  · intro hst hp
    have h1 : ¬ p < s.entranceFee := by omega
    refine ⟨{ s with entries := s.entries ++ [c], balance := s.balance + p },
      ?_, rfl, by simp⟩
    simp [Lottery.enter, h1, hst]

/-- Witness for C4 at a concrete state: underpayment 4 < 10 is rejected and
exact payment 10 is accepted. -/
theorem enter_fee_gate_witness :
    sampleOpen.enter 3 4 = Except.error LError.InsufficientPayment ∧
    ∃ s1, sampleOpen.enter 3 10 = Except.ok (s1, LEvent.EntryRecorded 3) ∧
      s1.entries = sampleOpen.entries ++ [3] ∧
      s1.entries.length = sampleOpen.entries.length + 1 :=
  ⟨(enter_fee_gate sampleOpen 3 4).1 (by decide),
   (enter_fee_gate sampleOpen 3 10).2 (by decide) (by decide)⟩

/-- Claim C6: in every state, `fulfillRandomness` with a request identifier
that does not match the outstanding request fails with UnknownRequestId. -/
theorem fulfill_unknown_request_fails (s : Lottery) (now rid : Nat)
    (ws : List Nat) (h : s.outstandingRequest ≠ some rid) :
    s.fulfillRandomness now rid ws = .error .UnknownRequestId := by
  simp [Lottery.fulfillRandomness, h]

/-- Witness for C6 at concrete states: an Open state with no outstanding
request rejects identifier 0, and a Calculating state with outstanding
request 1 rejects identifier 2. -/
theorem fulfill_unknown_request_fails_witness :
    sampleOpen.fulfillRandomness 6 0 [0] = Except.error LError.UnknownRequestId ∧
    sampleUpkept.fulfillRandomness 8 2 [0] = Except.error LError.UnknownRequestId :=
  ⟨fulfill_unknown_request_fails sampleOpen 6 0 [0] (by decide),
   fulfill_unknown_request_fails sampleUpkept 8 2 [0] (by decide)⟩

/-- Claim C1: in a state with a non-empty entry list and a matching
outstanding request, at any ledger time later than LatestTimestamp,
`fulfillRandomness` succeeds, transfers the full balance to the winner
entries[randomWords[0] mod entries.length], resets the entry list to empty,
sets the state to Open, strictly increases LatestTimestamp, records as
RecentWinner one of the pre-fulfillment entrants, and emits WinnerPicked. -/
theorem fulfill_picks_winner_and_resets (s : Lottery) (now rid : Nat)
    (ws : List Nat) (hne : s.entries ≠ [])
    (hreq : s.outstandingRequest = some rid)
    (ht : s.latestTimestamp < now) :
    ∃ out, s.fulfillRandomness now rid ws = .ok out ∧
      out.transferTo = s.entries.getD (ws.headD 0 % s.entries.length) 0 ∧
      out.transferAmount = s.balance ∧
      out.st.entries = [] ∧
      out.st.state = .Open ∧
      s.latestTimestamp < out.st.latestTimestamp ∧
      out.st.recentWinner = some out.transferTo ∧
      out.transferTo ∈ s.entries ∧
      out.ev = .WinnerPicked out.transferTo := by
  have hlen : 0 < s.entries.length := List.length_pos.mpr hne
  have hidx : ws.headD 0 % s.entries.length < s.entries.length :=
    Nat.mod_lt _ hlen
  have hfr : s.fulfillRandomness now rid ws =
      .ok { st := { s with
                      entries := []
                      state := .Open
                      latestTimestamp := now
                      recentWinner :=
                        some (s.entries.getD (ws.headD 0 % s.entries.length) 0)
                      balance := 0
                      outstandingRequest := none }
            ev := .WinnerPicked (s.entries.getD (ws.headD 0 % s.entries.length) 0)
            transferTo := s.entries.getD (ws.headD 0 % s.entries.length) 0
            transferAmount := s.balance } := by
    simp [Lottery.fulfillRandomness, hreq]
  refine ⟨_, hfr, rfl, rfl, rfl, rfl, ht, rfl, ?_, rfl⟩
  rw [List.getD_eq_getElem s.entries 0 hidx]
  exact List.getElem_mem hidx

/-- Witness for C1 at a concrete Calculating state with one entrant and
outstanding request 1, fulfilled at time 8 with random word 5. -/
theorem fulfill_picks_winner_and_resets_witness :
    ∃ out, sampleUpkept.fulfillRandomness 8 1 [5] = Except.ok out ∧
      out.transferTo =
        sampleUpkept.entries.getD
          (List.headD [5] 0 % sampleUpkept.entries.length) 0 ∧
      out.transferAmount = sampleUpkept.balance ∧
      out.st.entries = [] ∧
      out.st.state = .Open ∧
      sampleUpkept.latestTimestamp < out.st.latestTimestamp ∧
      out.st.recentWinner = some out.transferTo ∧
      out.transferTo ∈ sampleUpkept.entries ∧
      out.ev = .WinnerPicked out.transferTo :=
  fulfill_picks_winner_and_resets sampleUpkept 8 1 [5]
    (by decide) (by decide) (by decide)

/-- Claim C3: `performUpkeep` fails with UpkeepNotNeeded exactly when
`checkUpkeepNeeded` is false, and on success the state transitions to
Calculating, the randomness request is recorded as outstanding, and
RequestedWinner is emitted with the request identifier. -/
theorem performUpkeep_gated_by_check (s : Lottery) (now rid : Nat) :
    (s.performUpkeep now rid = .error .UpkeepNotNeeded ↔
      s.checkUpkeepNeeded now = false) ∧
    (∀ s1 ev, s.performUpkeep now rid = .ok (s1, ev) →
      s1.state = .Calculating ∧ s1.outstandingRequest = some rid ∧
        ev = .RequestedWinner rid) := by
  constructor
  · by_cases h : s.checkUpkeepNeeded now <;> simp [Lottery.performUpkeep, h]
  · intro s1 ev h
    exact performUpkeep_ok_spec h

/-- Witness for C3 at a concrete ready state: upkeep at time 6 with request
identifier 1 yields the Calculating state. -/
theorem performUpkeep_gated_by_check_witness :
    sampleUpkept.state = LotteryState.Calculating ∧
    sampleUpkept.outstandingRequest = some 1 ∧
    LEvent.RequestedWinner 1 = LEvent.RequestedWinner 1 :=
  (performUpkeep_gated_by_check sampleOpen 6 1).2 sampleUpkept
    (LEvent.RequestedWinner 1) rfl

/-- The state after a successful `fulfillRandomness` has an empty entry
list. -/
theorem fulfill_ok_entries_nil {s : Lottery} {now rid : Nat} {ws : List Nat}
    {out : FulfillOut} (h : s.fulfillRandomness now rid ws = .ok out) :
    out.st.entries = [] := by
  by_cases hq : s.outstandingRequest = some rid
  · simp [Lottery.fulfillRandomness, hq] at h
    rw [← h]
  · simp [Lottery.fulfillRandomness, hq] at h

/-- Claim C9: `getPlayer i` returns the i-th recorded entrant when the index
is in range and fails (none) when it is out of range; in particular it fails
at index 0 right after a fulfillment reset the entry list. -/
theorem getPlayer_bounds (s : Lottery) (i : Nat) :
    (∀ h : i < s.entries.length, s.getPlayer i = some (s.entries.get ⟨i, h⟩)) ∧
    (s.entries.length ≤ i → s.getPlayer i = none) ∧
    (∀ now rid ws out, s.fulfillRandomness now rid ws = .ok out →
      out.st.getPlayer 0 = none) := by
  refine ⟨fun h => List.get?_eq_get h, fun h => List.get?_eq_none.mpr h, ?_⟩
  intro now rid ws out h
  have := fulfill_ok_entries_nil h
  simp [Lottery.getPlayer, this]

/-- Witness for C9 at concrete states: index 0 of a one-element entry list
is entrant 7, index 1 is out of range, and after the fulfillment of request
1 the reset list rejects index 0. -/
theorem getPlayer_bounds_witness :
    sampleOpen.getPlayer 0 = some 7 ∧
    sampleOpen.getPlayer 1 = none ∧
    ({ st := { sampleUpkept with
                 entries := []
                 state := .Open
                 latestTimestamp := 8
                 recentWinner := some 7
                 balance := 0
                 outstandingRequest := none }
       ev := .WinnerPicked 7
       transferTo := 7
       transferAmount := 10 } : FulfillOut).st.getPlayer 0 = none :=
  ⟨(getPlayer_bounds sampleOpen 0).1 (by decide),
   (getPlayer_bounds sampleOpen 1).2.1 (by decide),
   (getPlayer_bounds sampleUpkept 0).2.2 8 1 [5] _ rfl⟩

/-- Claim C7: every failing operation is all-or-nothing: at ledger level a
rejected `enter`, `performUpkeep` or `fulfillRandomness` transaction leaves
the observable state (entry list, LotteryState, RecentWinner,
LatestTimestamp, balance, outstanding request) entirely unchanged. -/
theorem failed_calls_leave_state_unchanged (s : Lottery) :
    (∀ c p e, s.enter c p = .error e → s.step (.enterA c p) = s) ∧
    (∀ now rid e, s.performUpkeep now rid = .error e →
      s.step (.upkeepA now rid) = s) ∧
    (∀ now rid ws e, s.fulfillRandomness now rid ws = .error e →
      s.step (.fulfillA now rid ws) = s) := by
  refine ⟨?_, ?_, ?_⟩
  · intro c p e h
    simp [Lottery.step, h]
  · intro now rid e h
    simp [Lottery.step, h]
  · intro now rid ws e h
    simp [Lottery.step, h]

/-- Witness for C7 at a concrete Calculating state: a rejected entry, a
rejected upkeep and a rejected fulfillment each leave the state unchanged. -/
theorem failed_calls_leave_state_unchanged_witness :
    sampleUpkept.step (LAction.enterA 3 10) = sampleUpkept ∧
    sampleUpkept.step (LAction.upkeepA 20 2) = sampleUpkept ∧
    sampleUpkept.step (LAction.fulfillA 20 2 [0]) = sampleUpkept :=
  ⟨(failed_calls_leave_state_unchanged sampleUpkept).1 3 10 LError.NotOpen rfl,
   (failed_calls_leave_state_unchanged sampleUpkept).2.1 20 2
     LError.UpkeepNotNeeded rfl,
   (failed_calls_leave_state_unchanged sampleUpkept).2.2 20 2 [0]
     LError.UnknownRequestId rfl⟩

/-- From a Calculating state, any transaction other than a fulfillment
attempt leaves the state Calculating. -/
theorem step_preserves_calculating {s : Lottery}
    (hs : s.state = .Calculating) (a : LAction)
    (hna : ∀ nf rq ws, a ≠ LAction.fulfillA nf rq ws) :
    (s.step a).state = .Calculating := by
  cases a with
  | enterA c p =>
      cases henter : s.enter c p with
      | ok v =>
          exfalso
          obtain ⟨s2, ev⟩ := v
          have hopen := enter_ok_state_open henter
          rw [hs] at hopen
          exact absurd hopen (by decide)
      | error e => simp [Lottery.step, henter, hs]
  | upkeepA now rid =>
      have hc : s.checkUpkeepNeeded now = false := by
        simp [Lottery.checkUpkeepNeeded, hs]
      simp [Lottery.step, Lottery.performUpkeep, hc, hs]
  | fulfillA nf rq ws => exact absurd rfl (hna nf rq ws)

/-- From a Calculating state, a sequence of transactions containing no
fulfillment attempt leaves the state Calculating. -/
theorem foldl_stays_calculating {acts : List LAction} {s : Lottery}
    (hs : s.state = .Calculating)
    (hna : ∀ a ∈ acts, ∀ nf rq ws, a ≠ LAction.fulfillA nf rq ws) :
    (acts.foldl Lottery.step s).state = .Calculating := by
  induction acts generalizing s with
  | nil => exact hs
  | cons a rest ih =>
      rw [List.foldl_cons]
      refine ih (step_preserves_calculating hs a ?_) ?_
      · exact hna a (List.mem_cons_self a rest)
      · intro b hb
        exact hna b (List.mem_cons_of_mem a hb)

/-- From a Calculating state, one transaction either leaves the state
Calculating or is a fulfillment attempt that completes successfully. -/
theorem step_calculating_cases {s : Lottery}
    (hs : s.state = .Calculating) (a : LAction) :
    (s.step a).state = .Calculating ∨
      ∃ nf rq ws out, a = LAction.fulfillA nf rq ws ∧
        s.fulfillRandomness nf rq ws = .ok out := by
  cases a with
  | enterA c p =>
      left
      refine step_preserves_calculating hs (.enterA c p) ?_
      intro nf rq ws h
      cases h
  | upkeepA now rid =>
      left
      refine step_preserves_calculating hs (.upkeepA now rid) ?_
      intro nf rq ws h
      cases h
  | fulfillA nf rq ws =>
      cases hf : s.fulfillRandomness nf rq ws with
      | ok out => exact Or.inr ⟨nf, rq, ws, out, rfl, hf⟩
      | error e =>
          left
          simp [Lottery.step, hf, hs]

/-- From a Calculating state, the state is Open again only after some
fulfillment attempt in the transaction sequence has completed successfully:
the sequence splits as pre ++ fulfillment ++ post with the fulfillment
succeeding from the state reached after pre. -/
theorem calculating_until_fulfill_completes {acts : List LAction}
    {s : Lottery} (hs : s.state = .Calculating)
    (hopen : (acts.foldl Lottery.step s).state = .Open) :
    ∃ pre nf rq ws post out,
      acts = pre ++ LAction.fulfillA nf rq ws :: post ∧
      (pre.foldl Lottery.step s).fulfillRandomness nf rq ws = .ok out := by
  induction acts generalizing s with
  | nil =>
      rw [List.foldl_nil, hs] at hopen
      exact absurd hopen (by decide)
  | cons a rest ih =>
      rw [List.foldl_cons] at hopen
      rcases step_calculating_cases hs a with hcalc | ⟨nf, rq, ws, out, rfl, hok⟩
      · obtain ⟨pre, nf, rq, ws, post, out, heq, hfok⟩ := ih hcalc hopen
        refine ⟨a :: pre, nf, rq, ws, post, out, by simp [heq], ?_⟩
        rw [List.foldl_cons]
        exact hfok
      · exact ⟨[], nf, rq, ws, rest, out, rfl, hok⟩

/-- Claim C5, counterexample: after a successful `performUpkeep`, an enter
call that underpays fails with InsufficientPayment — not with NotOpen as the
claim states for every enter call. -/
theorem calculating_enter_notopen_counterexample :
    sampleOpen.performUpkeep 6 1 =
      Except.ok (sampleUpkept, LEvent.RequestedWinner 1) ∧
    sampleUpkept.enter 3 0 = Except.error LError.InsufficientPayment ∧
    LError.InsufficientPayment ≠ LError.NotOpen :=
  ⟨rfl, rfl, by decide⟩

/-- Claim C5, amended: after `performUpkeep` succeeds the state is
Calculating; from that point no enter call succeeds — a call paying at least
the entrance fee fails with NotOpen, an underpaying call with
InsufficientPayment — until `fulfillRandomness` completes and returns the
state to Open: any transaction sequence ending in the Open state contains a
fulfillment attempt that completed successfully (in particular the state
stays Calculating through failed fulfillment attempts); entries are accepted
only in the Open state. -/
theorem calculating_blocks_entry (s s1 : Lottery) (ev : LEvent)
    (now rid : Nat) (hup : s.performUpkeep now rid = .ok (s1, ev)) :
    s1.state = .Calculating ∧
    (∀ c p s2 ev2, s1.enter c p ≠ .ok (s2, ev2)) ∧
    (∀ c p, s1.entranceFee ≤ p → s1.enter c p = .error .NotOpen) ∧
    (∀ acts : List LAction, (acts.foldl Lottery.step s1).state = .Open →
      ∃ pre nf rq ws post out,
        acts = pre ++ LAction.fulfillA nf rq ws :: post ∧
        (pre.foldl Lottery.step s1).fulfillRandomness nf rq ws = .ok out) ∧
    (∀ (t t2 : Lottery) (c p : Nat) (ev2 : LEvent),
      t.enter c p = .ok (t2, ev2) → t.state = .Open) := by
  obtain ⟨hst, hreq, hev⟩ := performUpkeep_ok_spec hup
  refine ⟨hst, ?_, ?_, ?_, ?_⟩
  · intro c p s2 ev2 hok
    have hopen := enter_ok_state_open hok
    rw [hst] at hopen
    exact absurd hopen (by decide)
  · intro c p hp
    have h1 : ¬ p < s1.entranceFee := by omega
    have h2 : s1.state ≠ .Open := by
      rw [hst]
      decide
    simp [Lottery.enter, h1, h2]
  · intro acts hopen
    exact calculating_until_fulfill_completes hst hopen
  · intro t t2 c p ev2 h
    exact enter_ok_state_open h

/-- Witness for the amended C5 at a concrete state: after the upkeep at time
6, the state is Calculating and a full-fee entry is rejected with NotOpen. -/
theorem calculating_blocks_entry_witness :
    sampleUpkept.state = LotteryState.Calculating ∧
    sampleUpkept.enter 3 10 = Except.error LError.NotOpen :=
  ⟨(calculating_blocks_entry sampleOpen sampleUpkept
      (LEvent.RequestedWinner 1) 6 1 rfl).1,
   (calculating_blocks_entry sampleOpen sampleUpkept
      (LEvent.RequestedWinner 1) 6 1 rfl).2.2.1 3 10 (by decide)⟩
